import Mathlib

/-!
Shallow embedding of the AIchemy COF-generator scripts.

The repository consists of three scripts built around the same idea:
random composition of building-block identifiers into COF name strings,
plus a bounded retry loop around an external structure builder
(pycofbuilder).  We embed:

* `random_cof_generator.py`  (the v1 variant): global whitelists
  `l2_list`/`t3_list`/`s4_list`/`r_list`, `COFGenerator.generate_candidate`,
  `build_from_string`, `FALLBACK_STRINGS`, `generate_and_save`, `main`.
* `random_cof_generator_v2.py` (the v2 variant): whitelists `L2_CORES` etc.,
  `COFGenerator.generate_candidate` with the error on unknown topology and
  the biased `_pick_func_group`, `build_from_string` with the on-disk
  re-check, and the retry loop plus exit handling of `main`.
* `work.py`: `COFGenerator.random_cof_name` (selection by numeric
  connectivity from library-derived pools) and `COFGenerator.batch_generate`.

Randomness is modelled by an explicit tape (`Rng`): `random.choice` reads
the next value of a natural-number stream modulo the list length, and
`random.random` reads the next value of a rational stream.  The external
pycofbuilder library is modelled as an oracle: a function giving, per call,
the outcome of `pcb.Framework(...)` / `cof.save(...)`.
-/

namespace AIchemy

/-- Explicit random tape standing for Python's process-wide `random` module:
`nats` feeds `random.choice` (index draws), `reals` feeds `random.random`.
`npos`/`rpos` are the positions of the next unread value on each stream. -/
structure Rng where
  nats : Nat → Nat
  reals : Nat → Rat
  npos : Nat
  rpos : Nat

/-- Model of `random.choice(l)` for a nonempty list `l`: consume one value of
the index stream and pick `l[value % len(l)]` (every element is reachable,
which is all the source relies on). -/
def Rng.choice {α : Type} [Inhabited α] (rng : Rng) (l : List α) : α × Rng :=
  (l.getD (rng.nats rng.npos % l.length) default, { rng with npos := rng.npos + 1 })

/-- Model of `random.random()`: consume one value of the rational stream. -/
def Rng.random (rng : Rng) : Rat × Rng :=
  (rng.reals rng.rpos, { rng with rpos := rng.rpos + 1 })

/-- All-zero tape, used for concrete evaluations. -/
def rng0 : Rng := { nats := fun _ => 0, reals := fun _ => 0, npos := 0, rpos := 0 }

/-! ### Whitelists of `random_cof_generator.py` (v1)

The module instantiates `generator = COFGenerator(l2_list, t3_list, s4_list,
r_list)`, so the v1 generator's `L2` cores are `l2_list`, its `T3` cores are
`t3_list`, its `S4` cores are `s4_list` and its functional groups `r_list`. -/

def l2_list : List String :=
  ["BENZ", "DBA1", "TPTA", "TRZN", "DICZ", "TPAM", "TPOB", "TBBZ", "DBA2", "TPNY",
   "BRZN", "TPTZ", "BTTP", "TPBZ", "STAR", "STAR1"]

def t3_list : List String :=
  ["PHEN", "BENZ", "HDZN", "PYEN", "INFL", "NAPT", "PTCD", "4IDT", "BBTZ", "DPEL",
   "TIDA", "DHPI", "DPBY", "PYTO", "TIEN", "DFFE", "ANTR", "2BPD", "DHSI", "3BPD",
   "INTO", "TPNY", "BDTP", "PYRN", "BPYB", "NDTP", "INDE", "DPDA", "BDFN", "IITT",
   "BTPH", "DPEY", "3IDT", "BPNY", "TPDI", "TTPH"]

def s4_list : List String := ["PTCA", "PHPR", "PORP"]

def r_list : List String :=
  ["COOH", "F", "Cl", "OCOCH3", "Ph", "Br", "NO", "SH", "CH3", "OEt", "EEPO",
   "CN", "tBu", "SO3H", "CHS", "I", "NO2", "CHO", "H", "EMEPO", "DMPE",
   "MEPO", "OProp", "OEEPO", "EPO", "NH2", "SO2H", "O", "OMe", "OH"]

/-- `self.cores` of the v1 generator (constructor at lines 20-34). -/
def coresV1 : String → List String
  | "L2" => l2_list
  | "T3" => t3_list
  | "S4" => s4_list
  | _ => []

/-- `self.func_groups` of the v1 generator. -/
def funcGroupsV1 : List String := r_list

/-- `self.valid_linkages` of the v1 generator. -/
def validLinkagesV1 : List (String × String) :=
  [("NH2", "CHO"), ("CHO", "NH2"), ("BOH2", "BOH2")]

/-- `topo_rules` local of v1 `generate_candidate` (lines 50-53), as an
association list preserving the dict insertion order. -/
def topoRulesV1 : List (String × String × String) :=
  [("HCB", "T3", "L2"), ("SQL", "S4", "L2")]

/-- `list(topo_rules.keys())` for v1. -/
def topoKeysV1 : List String := ["HCB", "SQL"]

/-! ### Whitelists of `random_cof_generator_v2.py` (v2) -/

def L2_CORES : List String :=
  ["BENZ", "TPTA", "TRZN", "DICZ", "TPAM", "TPOB", "DBA1", "TPNY", "BRZN", "TPTZ",
   "BTTP", "TPBZ"]

def T3_CORES : List String :=
  ["BENZ", "TPB", "TRZN", "HBC", "PYRE", "TRUX", "TPA", "BTP", "DTP", "HAT"]

def S4_CORES : List String := ["PORP", "PYRE", "PHPR"]

def H6_CORES : List String := ["HPCO", "HECO"]

def FUNC_GROUPS : List String :=
  ["H", "OH", "OMe", "F", "Cl", "Br", "CH3", "CN", "COOH", "NO2", "tBu", "Ph"]

/-- `self.cores` of the v2 generator. -/
def coresV2 : String → List String
  | "L2" => L2_CORES
  | "T3" => T3_CORES
  | "S4" => S4_CORES
  | "H6" => H6_CORES
  | _ => []

/-- `self.valid_linkages` of the v2 generator. -/
def validLinkagesV2 : List (String × String) :=
  [("NH2", "CHO"), ("CHO", "NH2"), ("BOH2", "BOH2"), ("NHNH2", "CHO"),
   ("CHO", "NHNH2"), ("CHCN", "CHO"), ("CHO", "CHCN")]

/-- `self.topo_rules` of the v2 generator (lines 51-56). -/
def topoRulesV2 : List (String × String × String) :=
  [("HCB", "T3", "L2"), ("SQL", "S4", "L2"), ("KGD", "T3", "L2"), ("HXL", "H6", "L2")]

/-- `list(self.topo_rules.keys())` for v2. -/
def topoKeysV2 : List String := ["HCB", "SQL", "KGD", "HXL"]

/-! ### Candidate generation -/

/-- The local variables of `generate_candidate` just before the final
formatting step (identical variable set in both v1 and v2). -/
structure CandParts where
  selectedTopo : String
  symA : String
  symB : String
  coreA : String
  coreB : String
  connA : String
  connB : String
  funcA : String
  funcB : String
  net : String
  stacking : String
deriving DecidableEq, Repr

/-- The final f-string of `generate_candidate`
(`{Sym}_{Core}_{Conn}_{Func}-{Sym}_{Core}_{Conn}_{Func}-{Top}_{Net}-{Stack}`,
v1 lines 76-82, v2 lines 86-90). -/
def candidateString (c : CandParts) : String :=
  (c.symA ++ "_" ++ c.coreA ++ "_" ++ c.connA ++ "_" ++ c.funcA) ++ "-" ++
  (c.symB ++ "_" ++ c.coreB ++ "_" ++ c.connB ++ "_" ++ c.funcB) ++ "-" ++
  (c.selectedTopo ++ "_" ++ c.net) ++ "-" ++ c.stacking

/-- Topology selection of v1 `generate_candidate` (lines 56-60):
`if topology and topology in topo_rules: ... else: random.choice(keys)`.
An unknown (or empty, Python falsiness) constraint silently falls back to a
random draw. -/
def selectTopoV1 (topology : Option String) (rng : Rng) : String × Rng :=
  match topology with
  | some t =>
    if (t != "") && (topoRulesV1.lookup t).isSome then (t, rng)
    else rng.choice topoKeysV1
  | none => rng.choice topoKeysV1

/-- v1 `COFGenerator.generate_candidate` (lines 45-84), computing the local
variables; the string is assembled by `candidateString`. -/
def generateCandidatePartsV1 (topology : Option String) (rng : Rng) : CandParts × Rng :=
  let s0 := selectTopoV1 topology rng
  let syms := (topoRulesV1.lookup s0.1).getD ("", "")
  let c1 := s0.2.choice (coresV1 syms.1)
  let c2 := c1.2.choice (coresV1 syms.2)
  let lk := c2.2.choice validLinkagesV1
  let f1 := lk.2.choice funcGroupsV1
  let f2 := f1.2.choice funcGroupsV1
  ({ selectedTopo := s0.1, symA := syms.1, symB := syms.2,
     coreA := c1.1, coreB := c2.1, connA := lk.1.1, connB := lk.1.2,
     funcA := f1.1, funcB := f2.1, net := "A", stacking := "AA" }, f2.2)

/-- The `0.3` threshold of `_pick_func_group`, as the rational 3/10 kept in
lowest terms so that comparisons against tape values reduce definitionally. -/
def biasThreshold : Rat := ⟨3, 10, by norm_num, by norm_num⟩

theorem biasThreshold_eq : biasThreshold = (3 : Rat) / 10 := by
  rw [biasThreshold, Rat.mk'_eq_divInt, Rat.divInt_eq_div]
  norm_num

/-- v2 `COFGenerator._pick_func_group` (lines 94-98): return H when
`random.random() < 0.3`, otherwise a uniform choice from the whitelist. -/
def pick_func_group (rng : Rng) : String × Rng :=
  let r := rng.random
  if r.1 < biasThreshold then ("H", r.2)
  else r.2.choice FUNC_GROUPS

/-- Topology selection of v2 `generate_candidate` (lines 58-63): a constraint
absent from `self.topo_rules` raises
`ValueError(f"Topology {topology} not defined in rules.")`. -/
def selectTopoV2 (topology : Option String) (rng : Rng) : Except String (String × Rng) :=
  match topology with
  | some t =>
    if (topoRulesV2.lookup t).isSome then .ok (t, rng)
    else .error ("Topology " ++ t ++ " not defined in rules.")
  | none => .ok (rng.choice topoKeysV2)

/-- v2 `COFGenerator.generate_candidate` (lines 57-92), computing the local
variables.  On the error path the tape is returned untouched: the exception
is raised before any random draw. -/
def generateCandidatePartsV2 (topology : Option String) (rng : Rng) :
    Except String CandParts × Rng :=
  match selectTopoV2 topology rng with
  | .error e => (.error e, rng)
  | .ok s0 =>
    let syms := (topoRulesV2.lookup s0.1).getD ("", "")
    let c1 := s0.2.choice (coresV2 syms.1)
    let c2 := c1.2.choice (coresV2 syms.2)
    let lk := c2.2.choice validLinkagesV2
    let f1 := pick_func_group lk.2
    let f2 := pick_func_group f1.2
    (.ok { selectedTopo := s0.1, symA := syms.1, symB := syms.2,
           coreA := c1.1, coreB := c2.1, connA := lk.1.1, connB := lk.1.2,
           funcA := f1.1, funcB := f2.1, net := "A", stacking := "AA" }, f2.2)

/-- v2 `COFGenerator.generate_candidate`: the formatted name string, or the
`ValueError` message. -/
def generate_candidate_v2 (topology : Option String) (rng : Rng) :
    Except String String × Rng :=
  let p := generateCandidatePartsV2 topology rng
  (p.1.map candidateString, p.2)

/-! ### The external builder and `build_from_string` -/

/-- Result dict of `build_from_string` (and of `main`'s retry loop): the keys
`ok`, `error`, `path`, `filename`, `cof_string` that the scripts read. -/
structure BResult where
  ok : Bool
  error : Option String := none
  path : Option String := none
  filename : Option String := none
  cofString : String := ""
deriving DecidableEq, Repr

/-- Oracle for one call into pycofbuilder: either `pcb.Framework`/`cof.save`
raises (message `msg`), or the build returns normally with the framework's
`cof.name` attribute and the resulting state of the disk (`fileExists p`
tells whether path `p` exists after the call). -/
inductive BuilderOutcome where
  | raises (msg : String)
  | builds (cofName : String) (fileExists : String → Bool)

/-- v1 `build_from_string` (lines 92-116): on an exception it returns a
failure dict; otherwise it reports success with the expected path, without
ever checking that the file exists on disk. -/
def build_from_string_v1 (cofString outputDir : String) (outcome : BuilderOutcome) :
    BResult :=
  match outcome with
  | .raises e => { ok := false, error := some e, cofString := cofString }
  | .builds _ _ =>
    let filename := cofString ++ ".cif"
    { ok := true, path := some (outputDir ++ "/" ++ filename),
      filename := some filename, cofString := cofString }

/-- v2 `build_from_string` (lines 107-133): after a normal return it looks
for `{cof.name}.cif`, falls back to `{cof_string}.cif`, and reports a
failure when neither exists (pcb can fail silently). -/
def build_from_string_v2 (cofString outputDir : String) (outcome : BuilderOutcome) :
    BResult :=
  match outcome with
  | .raises e => { ok := false, error := some e }
  | .builds cofName fileExists =>
    let filename1 := cofName ++ ".cif"
    let path1 := outputDir ++ "/" ++ filename1
    let chosen :=
      if fileExists path1 then (filename1, path1)
      else (cofString ++ ".cif", outputDir ++ "/" ++ (cofString ++ ".cif"))
    if fileExists chosen.2 then
      { ok := true, path := some chosen.2, filename := some chosen.1 }
    else
      { ok := false, error := some "File not written to disk" }

/-! ### v1 retry driver `generate_and_save`

For the retry claims the builder is abstracted as a call-indexed oracle
`builder : Nat → String → BResult` (the n-th `build_from_string` call on a
given string), and the successive `generator.generate_candidate(...)`
results as a stream `cands : Nat → String`.  The driver model additionally
returns the exact list of strings handed to `build_from_string`, in order,
so the attempt count and order are stated directly. -/

/-- `FALLBACK_STRINGS` of v1 (lines 119-124). -/
def FALLBACK_STRINGS : List String :=
  ["S4_PORP_CHO_I_H-L2_BDTP_NH2_CN_H_H_H_H-SQL_A-AA",
   "S4_PHPR_CHO_SO2H_H_H_H_H_H-L2_BPYB_NH2_NH2_H_H_H_H_H-SQL_A-AA",
   "T3_BRZN_CHO_OH-L2_DPDA_NH2_I_H_H_H-HCB_A-AA"]

/-- The `for _ in range(max_attempts)` loop of `generate_and_save`
(lines 131-138): arguments are the index of the next builder call, the
remaining iterations, and the current `last_result`.  Returns the strings
attempted, the next call index, and either the first success (`Sum.inl`) or
the final `last_result` (`Sum.inr`).  Each result has its `cof_string` key
overwritten with the attempted string, as in line 134. -/
def randomAttempts (builder : Nat → String → BResult) (cands : Nat → String) :
    Nat → Nat → Option BResult → List String × Nat × (BResult ⊕ Option BResult)
  | start, 0, last => ([], start, Sum.inr last)
  | start, fuel + 1, _last =>
    let s := cands start
    let r := { builder start s with cofString := s }
    if r.ok then ([s], start + 1, Sum.inl r)
    else
      let rest := randomAttempts builder cands (start + 1) fuel (some r)
      (s :: rest.1, rest.2.1, rest.2.2)

/-- The `for fallback in FALLBACK_STRINGS` loop of `generate_and_save`
(lines 141-146). -/
def fallbackAttempts (builder : Nat → String → BResult) :
    Nat → List String → Option BResult → List String × (BResult ⊕ Option BResult)
  | _, [], last => ([], Sum.inr last)
  | start, fb :: rest, _last =>
    let r := { builder start fb with cofString := fb }
    if r.ok then ([fb], Sum.inl r)
    else
      let rest2 := fallbackAttempts builder (start + 1) rest (some r)
      (fb :: rest2.1, rest2.2)

/-- A run of the retry driver: the strings handed to `build_from_string` in
order, and the returned result dict. -/
structure GSRun where
  trace : List String
  result : BResult
deriving Repr

/-- v1 `generate_and_save` (lines 127-148): `max_attempts` randomized tries,
then the fixed fallbacks, then `last_result or` the default failure dict. -/
def generate_and_save (builder : Nat → String → BResult) (cands : Nat → String)
    (maxAttempts : Nat) : GSRun :=
  let ra := randomAttempts builder cands 0 maxAttempts none
  match ra.2.2 with
  | Sum.inl r => ⟨ra.1, r⟩
  | Sum.inr last =>
    let fb := fallbackAttempts builder ra.2.1 FALLBACK_STRINGS last
    match fb.2 with
    | Sum.inl r => ⟨ra.1 ++ fb.1, r⟩
    | Sum.inr last2 =>
      ⟨ra.1 ++ fb.1,
       last2.getD { ok := false, error := some "Failed to generate after retries and fallbacks." }⟩

/-! ### v2 `main` retry loop and exit codes -/

/-- The `for i in range(args.max_attempts)` retry loop of v2 `main`
(lines 149-160): arguments are remaining iterations, next call index, and
the current `result` variable (overwritten each iteration, kept on fuel
exhaustion). -/
def mainRetryLoopV2 (builder : Nat → String → BResult) (cands : Nat → String) :
    Nat → Nat → BResult → List String × BResult
  | 0, _, res => ([], res)
  | fuel + 1, i, _res =>
    let s := cands i
    let r := { builder i s with cofString := s }
    if r.ok then ([s], r)
    else
      let rest := mainRetryLoopV2 builder cands fuel (i + 1) r
      (s :: rest.1, rest.2)

/-- v2 `main` retry phase (lines 147-160): `result` starts as the
`"Max attempts reached"` failure dict. -/
def mainResultV2 (builder : Nat → String → BResult) (cands : Nat → String)
    (maxAttempts : Nat) : List String × BResult :=
  mainRetryLoopV2 builder cands maxAttempts 0
    { ok := false, error := some "Max attempts reached" }

/-- Parsed command line of v1 `main` (lines 153-159). -/
structure ArgsV1 where
  topology : Option String
  supercell : Int
  outputDir : String
  json : Bool
  quiet : Bool
  maxAttempts : Int
deriving Repr

/-- Parsed command line of v2 `main` (lines 137-142). -/
structure ArgsV2 where
  topology : Option String
  supercell : Int
  outputDir : String
  json : Bool
  maxAttempts : Int
deriving Repr

/-- The topology argument v1 `main` actually passes to `generate_and_save`
(lines 163-169): the line `topology=args.topology` is commented out in the
source, so the call always uses the default `topology=None`, whatever the
`--topology` flag said. -/
def mainTopologyArgV1 (_args : ArgsV1) : Option String := none

/-- The topology argument v2 `main` passes to `generate_candidate`
(line 150): `args.topology`. -/
def mainTopologyArgV2 (args : ArgsV2) : Option String := args.topology

/-- Exit status of v1 `main` (line 181): `sys.exit(0 if result.get("ok")
else 1)`, reached in JSON and non-JSON mode alike. -/
def mainExitV1 (_args : ArgsV1) (result : BResult) : Nat :=
  if result.ok then 0 else 1

/-- Exit status of v2 `main` (lines 162-170): in JSON mode the payload is
printed and the function falls off the end (exit 0); only the non-JSON
failure branch calls `sys.exit(1)`. -/
def mainExitV2 (args : ArgsV2) (result : BResult) : Nat :=
  if args.json then 0
  else if result.ok then 0 else 1

/-! ### `work.py`: `random_cof_name` and `batch_generate`

The building-block pools `self.blocks_by_connectivity` and the stacking
table `self.stacking_by_topology` are filled by one-time queries against the
pycofbuilder library (`_build_block_library`), so they enter the model as
parameters. -/

/-- `self.topology_rules` of `work.py` (lines 108-114): topology tag to the
connectivity pair of its two node types. -/
def topologyRulesWork : List (String × Nat × Nat) :=
  [("HCB", 3, 3), ("SQL", 4, 4)]

/-- `list(self.topology_rules.keys())` of `work.py`. -/
def topoKeysWork : List String := ["HCB", "SQL"]

/-- The `while bb2_name == bb1_name: bb2_name = random.choice(bb2_list)`
loop of `random_cof_name` (lines 267-269).  The source loop is unbounded;
we bound the number of redraws by a fuel parameter, which none of the
properties proved below depends on. -/
def redrawLoop (bb2List : List String) (bb1 : String) :
    Nat → String → Rng → String × Rng
  | 0, bb2, rng => (bb2, rng)
  | fuel + 1, bb2, rng =>
    if bb2 = bb1 then
      let d := rng.choice bb2List
      redrawLoop bb2List bb1 fuel d.1 d.2
    else (bb2, rng)

/-- `work.py` `COFGenerator.random_cof_name` (lines 239-276): pick a
topology (or validate the constraint), look up the connectivity pair, draw
one block from each pool, discourage duplicates for self-paired topologies,
draw a stacking, and format `BB1-BB2-TOPOLOGY-STACKING`. -/
def random_cof_name (blocksByConn : Nat → List String)
    (stackingByTopo : String → List String) (redrawFuel : Nat)
    (topology : Option String) (rng : Rng) : Except String String × Rng :=
  let t0 :=
    match topology with
    | none => rng.choice topoKeysWork
    | some t => (t, rng)
  match topologyRulesWork.lookup t0.1 with
  | none => (.error ("Unknown topology " ++ t0.1), t0.2)
  | some cs =>
    let bb1List := blocksByConn cs.1
    let bb2List := blocksByConn cs.2
    if bb1List.isEmpty || bb2List.isEmpty then
      (.error ("No building blocks available with connectivity (" ++ toString cs.1 ++
        ", " ++ toString cs.2 ++ ") for topology " ++ t0.1 ++ "."), t0.2)
    else
      let b1 := t0.2.choice bb1List
      let b2 := b1.2.choice bb2List
      let b2' :=
        if cs.1 = cs.2 ∧ 1 < bb1List.length then
          redrawLoop bb2List b1.1 redrawFuel b2.1 b2.2
        else b2
      let st := b2'.2.choice (stackingByTopo t0.1)
      (.ok (b1.1 ++ "-" ++ b2'.1 ++ "-" ++ t0.1 ++ "-" ++ st.1), st.2)

/-- One row of the `records` list built by `batch_generate`. -/
structure BatchRecord where
  cofName : Option String
  topology : Option String
  status : String
  error : Option String
deriving DecidableEq, Repr

/-- The mutable loop state of `batch_generate`: `records`, `n_success`,
`attempts`. -/
structure BatchState where
  records : List BatchRecord
  nSuccess : Nat
  attempts : Nat
deriving DecidableEq, Repr

/-- Splitting a character list at every occurrence of the dash, Python's
`str.split("-")` for the single-character separator used here. -/
def splitDash : List Char → List (List Char)
  | [] => [[]]
  | c :: rest =>
    let r := splitDash rest
    if c = '-' then [] :: r
    else (c :: r.headD []) :: r.tail

/-- `cof_name.split("-")[2]` of `batch_generate` (line 331): the third
dash-separated component, or the `IndexError` message when there are fewer
than three components (the access sits inside the same `try`). -/
def topoComponent (s : String) : Except String String :=
  match ((splitDash s.data).map (fun cs => String.mk cs)).get? 2 with
  | some t => .ok t
  | none => .error "list index out of range"

/-- The `while n_success < n_structures and attempts < max_attempts` loop of
`batch_generate` (lines 326-360).  `attempts < max_attempts` is realised by
the fuel argument (`fuel = max_attempts - attempts` from the initial state);
`attempts` is incremented at the top of every iteration.  `random_cof_name`
is abstracted as a per-iteration oracle `nameGen` and `try_build_and_save`
as a per-iteration oracle `builder` returning `(ok, error)`. -/
def batchLoop (nameGen : Nat → Except String String)
    (builder : Nat → String → Bool × Option String)
    (topologyArg : Option String) (nStructures : Nat) :
    Nat → BatchState → BatchState
  | 0, st => st
  | fuel + 1, st =>
    if st.nSuccess < nStructures then
      match nameGen st.attempts with
      | .error e =>
        batchLoop nameGen builder topologyArg nStructures fuel
          { st with
            attempts := st.attempts + 1,
            records := st.records ++
              [{ cofName := none, topology := topologyArg, status := "name_error",
                 error := some e }] }
      | .ok cofName =>
        match topoComponent cofName with
        | .error e =>
          batchLoop nameGen builder topologyArg nStructures fuel
            { st with
              attempts := st.attempts + 1,
              records := st.records ++
                [{ cofName := none, topology := topologyArg, status := "name_error",
                   error := some e }] }
        | .ok topo =>
          batchLoop nameGen builder topologyArg nStructures fuel
            { records := st.records ++
                [{ cofName := some cofName, topology := some topo,
                   status := if (builder st.attempts cofName).1 then "ok" else "error",
                   error := (builder st.attempts cofName).2 }],
              nSuccess := st.nSuccess + (if (builder st.attempts cofName).1 then 1 else 0),
              attempts := st.attempts + 1 }
    else st

/-- `work.py` `COFGenerator.batch_generate` (lines 295-370): the
`max_attempts=None` default resolves to `n_structures * 10`; the loop starts
from empty records and zero counters. -/
def batch_generate (nameGen : Nat → Except String String)
    (builder : Nat → String → Bool × Option String)
    (topologyArg : Option String) (nStructures : Nat)
    (maxAttempts : Option Nat) : BatchState :=
  batchLoop nameGen builder topologyArg nStructures
    (maxAttempts.getD (nStructures * 10))
    { records := [], nSuccess := 0, attempts := 0 }

/-! ## Supporting lemmas for the retry driver -/

theorem randomAttempts_allFail (builder : Nat → String → BResult)
    (cands : Nat → String) (hfail : ∀ n s, (builder n s).ok = false) :
    ∀ (fuel start : Nat) (last : Option BResult),
      randomAttempts builder cands start (fuel + 1) last =
        ((List.range' start (fuel + 1)).map cands, start + (fuel + 1),
         Sum.inr (some { builder (start + fuel) (cands (start + fuel)) with
                          cofString := cands (start + fuel) })) := by
  intro fuel
  induction fuel with
  | zero =>
    intro start last
    simp [randomAttempts, hfail, List.range']
  | succ f ih =>
    intro start last
    rw [randomAttempts]
    simp only [hfail, Bool.false_eq_true, if_false]
    rw [ih (start + 1)]
    have h1 : start + 1 + f = start + (f + 1) := by omega
    have h2 : start + 1 + (f + 1) = start + (f + 1 + 1) := by omega
    simp [List.range'_succ, h1, h2, hfail]

theorem fallbackAttempts_allFail3 (builder : Nat → String → BResult)
    (hfail : ∀ n s, (builder n s).ok = false)
    (start : Nat) (a b c : String) (last : Option BResult) :
    fallbackAttempts builder start [a, b, c] last =
      ([a, b, c],
       Sum.inr (some { builder (start + 1 + 1) c with cofString := c })) := by
  simp [fallbackAttempts, hfail]

/-- C1: with a positive attempt budget and a builder that fails on every
call, `generate_and_save` hands exactly `max_attempts` generated candidates
to the builder, then each of the three `FALLBACK_STRINGS` once in list
order, and returns a failure whose `error` is that of the very last build
(the third fallback, builder call `max_attempts + 2`). -/
theorem c1_always_failing_builder_exhausts (builder : Nat → String → BResult)
    (cands : Nat → String) (maxAttempts : Nat) (hpos : 0 < maxAttempts)
    (hfail : ∀ n s, (builder n s).ok = false) :
    (generate_and_save builder cands maxAttempts).trace
        = (List.range maxAttempts).map cands ++ FALLBACK_STRINGS
    ∧ (generate_and_save builder cands maxAttempts).result.ok = false
    ∧ (generate_and_save builder cands maxAttempts).result.error
        = (builder (maxAttempts + 2)
            "T3_BRZN_CHO_OH-L2_DPDA_NH2_I_H_H_H-HCB_A-AA").error := by
  obtain ⟨m, rfl⟩ : ∃ m, maxAttempts = m + 1 := ⟨maxAttempts - 1, by omega⟩
  have h1 := randomAttempts_allFail builder cands hfail m 0 none
  have h2 := fallbackAttempts_allFail3 builder hfail (m + 1)
    "S4_PORP_CHO_I_H-L2_BDTP_NH2_CN_H_H_H_H-SQL_A-AA"
    "S4_PHPR_CHO_SO2H_H_H_H_H_H-L2_BPYB_NH2_NH2_H_H_H_H_H-SQL_A-AA"
    "T3_BRZN_CHO_OH-L2_DPDA_NH2_I_H_H_H-HCB_A-AA"
    (some { builder m (cands m) with cofString := cands m })
  simp only [generate_and_save, FALLBACK_STRINGS, h1, Nat.zero_add, h2,
    List.range_eq_range']
  refine ⟨?_, ?_, ?_⟩ <;> simp [hfail]

theorem randomAttempts_firstSuccess (builder : Nat → String → BResult)
    (cands : Nat → String) (m : Nat)
    (hsucc : (builder m (cands m)).ok = true) :
    ∀ (fuel start : Nat) (last : Option BResult), start ≤ m → m < start + fuel →
      (∀ n, start ≤ n → n < m → (builder n (cands n)).ok = false) →
      randomAttempts builder cands start fuel last =
        ((List.range' start (m + 1 - start)).map cands, m + 1,
         Sum.inl { builder m (cands m) with cofString := cands m }) := by
  intro fuel
  induction fuel with
  | zero => intro start last h1 h2 _; omega
  | succ f ih =>
    intro start last h1 h2 hfail
    rcases Nat.lt_or_ge start m with hlt | hge
    · rw [randomAttempts]
      simp only [hfail start (Nat.le_refl _) hlt, Bool.false_eq_true, if_false]
      rw [ih (start + 1) _ (by omega) (by omega)
        (fun n hn1 hn2 => hfail n (by omega) hn2)]
      have h3 : m + 1 - start = (m + 1 - (start + 1)) + 1 := by omega
      rw [h3, List.range'_succ]
      simp
    · have hm : start = m := by omega
      subst hm
      rw [randomAttempts]
      simp only [hsucc, if_true]
      have h3 : start + 1 - start = 1 := by omega
      simp [h3, List.range'_succ]

theorem mainRetryLoopV2_firstSuccess (builder : Nat → String → BResult)
    (cands : Nat → String) (m : Nat)
    (hsucc : (builder m (cands m)).ok = true) :
    ∀ (fuel start : Nat) (res : BResult), start ≤ m → m < start + fuel →
      (∀ n, start ≤ n → n < m → (builder n (cands n)).ok = false) →
      mainRetryLoopV2 builder cands fuel start res =
        ((List.range' start (m + 1 - start)).map cands,
         { builder m (cands m) with cofString := cands m }) := by
  intro fuel
  induction fuel with
  | zero => intro start res h1 h2 _; omega
  | succ f ih =>
    intro start res h1 h2 hfail
    rcases Nat.lt_or_ge start m with hlt | hge
    · rw [mainRetryLoopV2]
      simp only [hfail start (Nat.le_refl _) hlt, Bool.false_eq_true, if_false]
      rw [ih (start + 1) _ (by omega) (by omega)
        (fun n hn1 hn2 => hfail n (by omega) hn2)]
      have h3 : m + 1 - start = (m + 1 - (start + 1)) + 1 := by omega
      rw [h3, List.range'_succ]
      simp
    · have hm : start = m := by omega
      subst hm
      rw [mainRetryLoopV2]
      simp only [hsucc, if_true]
      have h3 : start + 1 - start = 1 := by omega
      simp [h3, List.range'_succ]

/-- C2: if the builder fails on the first `k - 1` calls and succeeds on the
`k`-th (with `1 ≤ k ≤ max_attempts`), the v1 driver `generate_and_save`
attempts exactly the first `k` generated candidates, touches no fallback
string, and returns that success result; the v2 `main` retry loop behaves
the same way. -/
theorem c2_success_on_kth_attempt (builder : Nat → String → BResult)
    (cands : Nat → String) (k maxAttempts : Nat)
    (hk1 : 1 ≤ k) (hk2 : k ≤ maxAttempts)
    (hfail : ∀ n, n < k - 1 → (builder n (cands n)).ok = false)
    (hsucc : (builder (k - 1) (cands (k - 1))).ok = true) :
    (generate_and_save builder cands maxAttempts).trace = (List.range k).map cands
    ∧ (generate_and_save builder cands maxAttempts).result
        = { builder (k - 1) (cands (k - 1)) with cofString := cands (k - 1) }
    ∧ (generate_and_save builder cands maxAttempts).result.ok = true
    ∧ mainResultV2 builder cands maxAttempts
        = ((List.range k).map cands,
           { builder (k - 1) (cands (k - 1)) with cofString := cands (k - 1) }) := by
  have h1 := randomAttempts_firstSuccess builder cands (k - 1) hsucc maxAttempts 0
    none (by omega) (by omega) (fun n hn1 hn2 => hfail n hn2)
  have h2 := mainRetryLoopV2_firstSuccess builder cands (k - 1) hsucc maxAttempts 0
    { ok := false, error := some "Max attempts reached" }
    (by omega) (by omega) (fun n hn1 hn2 => hfail n hn2)
  have hk : k - 1 + 1 - 0 = k := by omega
  rw [hk] at h1 h2
  simp only [generate_and_save, mainResultV2, h1, h2, List.range_eq_range']
  exact ⟨trivial, trivial, hsucc, trivial⟩

/-! ## Supporting lemmas for `batch_generate` -/

theorem batchLoop_progress (nameGen : Nat → Except String String)
    (builder : Nat → String → Bool × Option String)
    (topologyArg : Option String) (nStructures : Nat) :
    ∀ (fuel : Nat) (st : BatchState),
      ∃ d, d ≤ fuel
        ∧ (batchLoop nameGen builder topologyArg nStructures fuel st).attempts
            = st.attempts + d
        ∧ (batchLoop nameGen builder topologyArg nStructures fuel st).records.length
            = st.records.length + d := by
  intro fuel
  induction fuel with
  | zero =>
    intro st
    exact ⟨0, Nat.le_refl _, by simp [batchLoop], by simp [batchLoop]⟩
  | succ f ih =>
    intro st
    rw [batchLoop]
    by_cases h : st.nSuccess < nStructures
    · simp only [if_pos h]
      cases hng : nameGen st.attempts with
      | error e =>
        dsimp only
        obtain ⟨d, hd, h1, h2⟩ := ih
          { st with
            attempts := st.attempts + 1,
            records := st.records ++
              [{ cofName := none, topology := topologyArg, status := "name_error",
                 error := some e }] }
        refine ⟨d + 1, by omega, ?_, ?_⟩
        · rw [h1]; simp; omega
        · rw [h2]; simp; omega
      | ok cofName =>
        dsimp only
        cases htc : topoComponent cofName with
        | error e =>
          dsimp only
          obtain ⟨d, hd, h1, h2⟩ := ih
            { st with
              attempts := st.attempts + 1,
              records := st.records ++
                [{ cofName := none, topology := topologyArg, status := "name_error",
                   error := some e }] }
          refine ⟨d + 1, by omega, ?_, ?_⟩
          · rw [h1]; simp; omega
          · rw [h2]; simp; omega
        | ok topo =>
          dsimp only
          obtain ⟨d, hd, h1, h2⟩ := ih
            { records := st.records ++
                [{ cofName := some cofName, topology := some topo,
                   status := if (builder st.attempts cofName).1 then "ok" else "error",
                   error := (builder st.attempts cofName).2 }],
              nSuccess := st.nSuccess + (if (builder st.attempts cofName).1 then 1 else 0),
              attempts := st.attempts + 1 }
          refine ⟨d + 1, by omega, ?_, ?_⟩
          · rw [h1]; simp; omega
          · rw [h2]; simp; omega
    · exact ⟨0, by omega, by simp [if_neg h], by simp [if_neg h]⟩

theorem batchLoop_allOk (nameGen : Nat → Except String String)
    (builder : Nat → String → Bool × Option String)
    (topologyArg : Option String) (nStructures : Nat)
    (hname : ∀ i, ∃ s t, nameGen i = .ok s ∧ topoComponent s = .ok t)
    (hok : ∀ i s, builder i s = (true, none)) :
    ∀ (fuel : Nat) (st : BatchState), nStructures ≤ st.nSuccess + fuel →
      st.nSuccess ≤ nStructures →
      (batchLoop nameGen builder topologyArg nStructures fuel st).nSuccess
          = nStructures
      ∧ (batchLoop nameGen builder topologyArg nStructures fuel st).attempts
          = st.attempts + (nStructures - st.nSuccess)
      ∧ (batchLoop nameGen builder topologyArg nStructures fuel st).records.length
          = st.records.length + (nStructures - st.nSuccess)
      ∧ ((batchLoop nameGen builder topologyArg nStructures fuel st).records.filter
            (fun r => r.status = "ok")).length
          = (st.records.filter (fun r => r.status = "ok")).length
            + (nStructures - st.nSuccess) := by
  intro fuel
  induction fuel with
  | zero =>
    intro st hf hs
    have : st.nSuccess = nStructures := by omega
    simp [batchLoop, this]
  | succ f ih =>
    intro st hf hs
    rw [batchLoop]
    by_cases h : st.nSuccess < nStructures
    · simp only [if_pos h]
      obtain ⟨s, t, hsg, htc⟩ := hname st.attempts
      rw [hsg]
      dsimp only
      rw [htc]
      dsimp only
      simp only [hok, if_true]
      obtain ⟨k1, k2, k3, k4⟩ := ih
        { records := st.records ++
            [{ cofName := some s, topology := some t, status := "ok", error := none }],
          nSuccess := st.nSuccess + 1,
          attempts := st.attempts + 1 }
        (by simp; omega) (by simp; omega)
      refine ⟨by rw [k1], ?_, ?_, ?_⟩
      · rw [k2]; simp; omega
      · rw [k3]; simp; omega
      · rw [k4]; simp [List.filter_append]; omega
    · have : st.nSuccess = nStructures := by omega
      simp [if_neg h, this]

/-- C10: `batch_generate` is bounded for every oracle behaviour: the attempt
counter goes up at the top of every loop iteration (name errors included),
every iteration appends exactly one record, and the loop body runs at most
the resolved `max_attempts` times. -/
theorem c10_batch_generate_bounded (nameGen : Nat → Except String String)
    (builder : Nat → String → Bool × Option String)
    (topologyArg : Option String) (nStructures : Nat) (maxAttempts : Option Nat) :
    (batch_generate nameGen builder topologyArg nStructures maxAttempts).attempts
        ≤ maxAttempts.getD (nStructures * 10)
    ∧ (batch_generate nameGen builder topologyArg nStructures maxAttempts).records.length
        = (batch_generate nameGen builder topologyArg nStructures maxAttempts).attempts := by
  obtain ⟨d, hd, h1, h2⟩ := batchLoop_progress nameGen builder topologyArg nStructures
    (maxAttempts.getD (nStructures * 10))
    { records := [], nSuccess := 0, attempts := 0 }
  unfold batch_generate
  refine ⟨?_, ?_⟩
  · rw [h1]; simpa using hd
  · rw [h1, h2]; simp

/-- C9: with a candidate generator that always produces a well-formed name
and a builder that always succeeds, `batch_generate` with target `n` and
`max_attempts ≥ n` produces a log with exactly `n` success-status rows, and
the row count of the log equals the total number of attempts made. -/
theorem c9_batch_all_success (nameGen : Nat → Except String String)
    (builder : Nat → String → Bool × Option String)
    (topologyArg : Option String) (n maxAttempts : Nat)
    (hma : n ≤ maxAttempts)
    (hname : ∀ i, ∃ s t, nameGen i = .ok s ∧ topoComponent s = .ok t)
    (hok : ∀ i s, builder i s = (true, none)) :
    ((batch_generate nameGen builder topologyArg n (some maxAttempts)).records.filter
        (fun r => r.status = "ok")).length = n
    ∧ (batch_generate nameGen builder topologyArg n (some maxAttempts)).records.length
        = (batch_generate nameGen builder topologyArg n (some maxAttempts)).attempts := by
  obtain ⟨k1, k2, k3, k4⟩ := batchLoop_allOk nameGen builder topologyArg n hname hok
    maxAttempts { records := [], nSuccess := 0, attempts := 0 }
    (by simpa) (by simp)
  unfold batch_generate
  simp only [Option.getD_some]
  refine ⟨?_, ?_⟩
  · rw [k4]; simp
  · rw [k2, k3]; simp

/-! ## Supporting lemmas for candidate generation -/

theorem Rng.choice_mem {α : Type} [Inhabited α] (rng : Rng) (l : List α)
    (h : l ≠ []) : (rng.choice l).1 ∈ l := by
  unfold Rng.choice
  have hlen : 0 < l.length := List.length_pos.mpr h
  have hlt : rng.nats rng.npos % l.length < l.length := Nat.mod_lt _ hlen
  simp only [List.getD_eq_getElem?_getD, List.getElem?_eq_getElem hlt,
    Option.getD_some]
  exact List.getElem_mem hlt

theorem lookupV1_isSome_of_mem : ∀ x ∈ topoKeysV1, (topoRulesV1.lookup x).isSome = true := by
  decide

theorem lookupV2_isSome_of_mem : ∀ x ∈ topoKeysV2, (topoRulesV2.lookup x).isSome = true := by
  decide

theorem selectTopoV1_valid (topology : Option String) (rng : Rng) :
    (topoRulesV1.lookup (selectTopoV1 topology rng).1).isSome = true := by
  unfold selectTopoV1
  cases topology with
  | none => exact lookupV1_isSome_of_mem _ (Rng.choice_mem _ _ (by simp [topoKeysV1]))
  | some t =>
    dsimp only
    split
    next hc =>
      have hc2 := hc
      simp only [Bool.and_eq_true] at hc2
      exact hc2.2
    next hc =>
      exact lookupV1_isSome_of_mem _ (Rng.choice_mem _ _ (by simp [topoKeysV1]))

theorem selectTopoV2_ok_lookup (topology : Option String) (rng : Rng)
    (sel : String × Rng) (h : selectTopoV2 topology rng = .ok sel) :
    (topoRulesV2.lookup sel.1).isSome = true := by
  cases topology with
  | none =>
    unfold selectTopoV2 at h
    dsimp only at h
    injection h with h
    subst h
    exact lookupV2_isSome_of_mem _ (Rng.choice_mem _ _ (by simp [topoKeysV2]))
  | some t =>
    unfold selectTopoV2 at h
    dsimp only at h
    split at h
    next hc =>
      injection h with h
      subst h
      exact hc
    next hc => cases h

theorem redrawLoop_mem (l : List String) (bb1 : String) (hne : l ≠ []) :
    ∀ (fuel : Nat) (bb2 : String) (rng : Rng), bb2 ∈ l →
      (redrawLoop l bb1 fuel bb2 rng).1 ∈ l := by
  intro fuel
  induction fuel with
  | zero => intro bb2 rng h; simpa [redrawLoop] using h
  | succ f ih =>
    intro bb2 rng h
    rw [redrawLoop]
    by_cases he : bb2 = bb1
    · simp only [if_pos he]
      exact ih _ _ (Rng.choice_mem _ _ hne)
    · simpa [if_neg he] using h

/-- C4: every candidate carries exactly the symmetry pair its topology rule
demands.  In v1 and v2 the `selectedTopo`, `symA`, `symB` locals that format
the two block segments and the topology segment always satisfy
`topo_rules[selectedTopo] == (symA, symB)`; the rule for HCB is `(T3, L2)`;
and in `work.py` every name produced by `random_cof_name` is
`bb1-bb2-topo-stacking` with `bb1`/`bb2` drawn from the pools of exactly the
connectivity pair that `topology_rules[topo]` demands. -/
theorem c4_block_tags_match_topology_rule :
    (∀ (topology : Option String) (rng : Rng),
      topoRulesV1.lookup ((generateCandidatePartsV1 topology rng).1.selectedTopo)
        = some ((generateCandidatePartsV1 topology rng).1.symA,
                (generateCandidatePartsV1 topology rng).1.symB))
    ∧ (∀ (topology : Option String) (rng : Rng) (c : CandParts) (rng2 : Rng),
        generateCandidatePartsV2 topology rng = (.ok c, rng2) →
        topoRulesV2.lookup c.selectedTopo = some (c.symA, c.symB))
    ∧ topoRulesV1.lookup "HCB" = some ("T3", "L2")
    ∧ topoRulesV2.lookup "HCB" = some ("T3", "L2")
    ∧ (∀ (pools : Nat → List String) (stackTab : String → List String)
        (fuel : Nat) (topology : Option String) (rng : Rng)
        (name : String) (rng2 : Rng),
        random_cof_name pools stackTab fuel topology rng = (.ok name, rng2) →
        ∃ topo c1 c2 bb1 bb2 st,
          topologyRulesWork.lookup topo = some (c1, c2)
          ∧ bb1 ∈ pools c1 ∧ bb2 ∈ pools c2
          ∧ name = bb1 ++ "-" ++ bb2 ++ "-" ++ topo ++ "-" ++ st) := by
  refine ⟨?_, ?_, rfl, rfl, ?_⟩
  · intro topology rng
    have hv := selectTopoV1_valid topology rng
    obtain ⟨p, hp⟩ := Option.isSome_iff_exists.mp hv
    simp [generateCandidatePartsV1, hp]
  · intro topology rng c rng2 h
    unfold generateCandidatePartsV2 at h
    cases hsel : selectTopoV2 topology rng with
    | error e =>
      rw [hsel] at h
      cases h
    | ok sel =>
      rw [hsel] at h
      dsimp only at h
      have hs := selectTopoV2_ok_lookup topology rng sel hsel
      obtain ⟨p, hp⟩ := Option.isSome_iff_exists.mp hs
      have hc := congrArg Prod.fst h
      dsimp only at hc
      injection hc with hc
      rw [← hc]
      simp [hp]
  · intro pools stackTab fuel topology rng name rng2 h
    unfold random_cof_name at h
    dsimp only at h
    generalize ht0 : (match topology with
      | none => rng.choice topoKeysWork
      | some t => (t, rng)) = t0 at h
    cases hl : topologyRulesWork.lookup t0.1 with
    | none =>
      rw [hl] at h
      cases h
    | some cs =>
      rw [hl] at h
      dsimp only at h
      split at h
      · cases h
      next hne =>
        have hne2 : ¬(pools cs.1).isEmpty = true ∧ ¬(pools cs.2).isEmpty = true := by
          constructor <;> intro hx <;> apply hne <;> simp [hx]
        have h1ne : pools cs.1 ≠ [] := by
          intro hx; exact hne2.1 (by simp [hx])
        have h2ne : pools cs.2 ≠ [] := by
          intro hx; exact hne2.2 (by simp [hx])
        have hname := congrArg Prod.fst h
        dsimp only at hname
        injection hname with hname
        refine ⟨t0.1, cs.1, cs.2, _, _, _, by simpa using hl, ?_, ?_, hname.symm⟩
        · exact Rng.choice_mem _ _ h1ne
        · split
          · exact redrawLoop_mem _ _ h2ne _ _ _ (Rng.choice_mem _ _ h2ne)
          · exact Rng.choice_mem _ _ h2ne

/-- Witness for C4 at concrete HCB runs of the v2 generator and of
`random_cof_name`. -/
theorem c4_block_tags_match_topology_rule_witness :
    (generateCandidatePartsV2 (some "HCB") rng0
        = (.ok ⟨"HCB", "T3", "L2", "BENZ", "BENZ", "NH2", "CHO", "H", "H", "A", "AA"⟩,
           { nats := fun _ => 0, reals := fun _ => 0, npos := 3, rpos := 2 })
      ∧ topoRulesV2.lookup
          (CandParts.selectedTopo ⟨"HCB", "T3", "L2", "BENZ", "BENZ", "NH2", "CHO", "H", "H", "A", "AA"⟩)
        = some (CandParts.symA ⟨"HCB", "T3", "L2", "BENZ", "BENZ", "NH2", "CHO", "H", "H", "A", "AA"⟩,
                CandParts.symB ⟨"HCB", "T3", "L2", "BENZ", "BENZ", "NH2", "CHO", "H", "H", "A", "AA"⟩))
    ∧ (random_cof_name (fun _ => ["X"]) (fun _ => ["AA"]) 0 (some "HCB") rng0
        = (.ok "X-X-HCB-AA", { nats := fun _ => 0, reals := fun _ => 0, npos := 3, rpos := 0 })
      ∧ ∃ topo c1 c2 bb1 bb2 st,
          topologyRulesWork.lookup topo = some (c1, c2)
          ∧ bb1 ∈ (fun _ : Nat => ["X"]) c1 ∧ bb2 ∈ (fun _ : Nat => ["X"]) c2
          ∧ "X-X-HCB-AA" = bb1 ++ "-" ++ bb2 ++ "-" ++ topo ++ "-" ++ st) :=
  ⟨⟨rfl, c4_block_tags_match_topology_rule.2.1 (some "HCB") rng0 _ _ rfl⟩,
   ⟨rfl, c4_block_tags_match_topology_rule.2.2.2.2
      (fun _ => ["X"]) (fun _ => ["AA"]) 0 (some "HCB") rng0 "X-X-HCB-AA" _ rfl⟩⟩

/-! ## C5: the `--topology` flag -/

/-- A v1 command line forcing topology SQL. -/
def argsForceSQLv1 : ArgsV1 :=
  { topology := some "SQL", supercell := 1, outputDir := "generated_cofs",
    json := false, quiet := false, maxAttempts := 20 }

/-- A v2 command line forcing topology SQL. -/
def argsForceSQLv2 : ArgsV2 :=
  { topology := some "SQL", supercell := 1, outputDir := "generated_cofs",
    json := false, maxAttempts := 20 }

/-- C5: v1 `main` ignores the `--topology` flag — the keyword argument is
commented out at the `generate_and_save` call site — so a run with
`--topology SQL` still samples the topology at random and can hand the
builder an HCB candidate; v2 `main` does pass the flag through, and with
`--topology SQL` every candidate the v2 generator yields encodes SQL. -/
theorem c5_v1_main_ignores_topology_flag :
    mainTopologyArgV1 argsForceSQLv1 = none
    ∧ (generateCandidatePartsV1 (mainTopologyArgV1 argsForceSQLv1) rng0).1.selectedTopo
        = "HCB"
    ∧ ("HCB" : String) ≠ "SQL"
    ∧ mainTopologyArgV2 argsForceSQLv2 = some "SQL"
    ∧ (∀ rng : Rng,
        ((generateCandidatePartsV2 (mainTopologyArgV2 argsForceSQLv2) rng).1).map
            (fun c => c.selectedTopo) = .ok "SQL") :=
  ⟨rfl, rfl, by decide, rfl, fun rng => rfl⟩

/-! ## C6: exit codes of `main` -/

/-- A v2 command line in JSON mode. -/
def argsJsonV2 : ArgsV2 :=
  { topology := none, supercell := 1, outputDir := "generated_cofs",
    json := true, maxAttempts := 20 }

/-- C6 counterexample: v2 `main` in JSON mode exits with status 0 even when
the run ended in the exhausted failure result, where the claim demands
status 1. -/
theorem c6_v2_json_failure_exits_zero :
    mainExitV2 argsJsonV2 { ok := false, error := some "Max attempts reached" } = 0
    ∧ mainExitV2 argsJsonV2 { ok := false, error := some "Max attempts reached" } ≠ 1 :=
  ⟨rfl, by decide⟩

/-- C6 (amended): v1 `main` exits 0 on success and 1 on failure in every
output mode; v2 `main` does so only in non-JSON mode — with `--json` it
always exits 0, failure included. -/
theorem c6_exit_status (args1 : ArgsV1) (args2 : ArgsV2) (result : BResult) :
    mainExitV1 args1 result = (if result.ok then 0 else 1)
    ∧ (args2.json = false → mainExitV2 args2 result = (if result.ok then 0 else 1))
    ∧ (args2.json = true → mainExitV2 args2 result = 0) := by
  refine ⟨rfl, ?_, ?_⟩ <;> intro h <;> simp [mainExitV2, h]

/-- Witness for C6 in both output modes on a failure result. -/
theorem c6_exit_status_witness :
    (argsForceSQLv2.json = false
      ∧ mainExitV2 argsForceSQLv2 { ok := false } = (if ({ ok := false } : BResult).ok then 0 else 1))
    ∧ (argsJsonV2.json = true ∧ mainExitV2 argsJsonV2 { ok := false } = 0) :=
  ⟨⟨rfl, (c6_exit_status argsForceSQLv1 argsForceSQLv2 { ok := false }).2.1 rfl⟩,
   ⟨rfl, (c6_exit_status argsForceSQLv1 argsJsonV2 { ok := false }).2.2 rfl⟩⟩

/-! ## C7: missing output file -/

/-- C7 (amended, v2): when the builder raises nothing but neither candidate
output path exists on disk afterwards, v2 `build_from_string` reports
failure with the `File not written to disk` error, so the missing file
drives the retry loop exactly like a build error. -/
theorem c7_missing_file_fails_v2 (cofString outputDir cofName : String)
    (fileExists : String → Bool)
    (h1 : fileExists (outputDir ++ "/" ++ (cofName ++ ".cif")) = false)
    (h2 : fileExists (outputDir ++ "/" ++ (cofString ++ ".cif")) = false) :
    (build_from_string_v2 cofString outputDir (.builds cofName fileExists)).ok = false
    ∧ (build_from_string_v2 cofString outputDir (.builds cofName fileExists)).error
        = some "File not written to disk" := by
  unfold build_from_string_v2
  simp [h1, h2]

/-- C7 counterexample: v1 `build_from_string` performs no on-disk re-check.
With a builder call that raises nothing while the disk holds no file at
all, it still returns `ok = True`. -/
theorem c7_v1_reports_success_without_file :
    (build_from_string_v1 "S4_PORP_CHO_H-L2_BENZ_NH2_H-SQL_A-AA" "generated_cofs"
        (.builds "S4_PORP_CHO_H-L2_BENZ_NH2_H-SQL_A-AA" (fun _ => false))).ok = true :=
  rfl

/-- Witness for C7 on an empty disk. -/
theorem c7_missing_file_fails_v2_witness :
    ((fun _ : String => false) ("d" ++ "/" ++ ("N" ++ ".cif")) = false)
    ∧ ((fun _ : String => false) ("d" ++ "/" ++ ("S" ++ ".cif")) = false)
    ∧ ((build_from_string_v2 "S" "d" (.builds "N" (fun _ => false))).ok = false
       ∧ (build_from_string_v2 "S" "d" (.builds "N" (fun _ => false))).error
          = some "File not written to disk") :=
  ⟨rfl, rfl, c7_missing_file_fails_v2 "S" "d" "N" (fun _ => false) rfl rfl⟩

/-! ## C8: substituent sampling policy -/

/-- C8 (amended): the v2 generator draws each side's substituent with
`_pick_func_group`: with probability 0.3 (the `random.random() < 0.3`
branch) it returns H, otherwise a uniform choice from the substituent
whitelist, and `generate_candidate` makes two such draws independently, one
per side.  The v1 generator has no such bias: it never consumes a
`random.random()` draw at all and picks each substituent uniformly from its
whitelist. -/
theorem c8_substituent_bias (rng : Rng) (topology : Option String) :
    biasThreshold = (3 : Rat) / 10
    ∧ (rng.reals rng.rpos < biasThreshold → (pick_func_group rng).1 = "H")
    ∧ (¬ rng.reals rng.rpos < biasThreshold →
        (pick_func_group rng).1
          = FUNC_GROUPS.getD (rng.nats rng.npos % FUNC_GROUPS.length) default)
    ∧ (∀ (c : CandParts) (rng2 : Rng),
        generateCandidatePartsV2 topology rng = (.ok c, rng2) →
        ∃ r1 : Rng, c.funcA = (pick_func_group r1).1
          ∧ c.funcB = (pick_func_group (pick_func_group r1).2).1)
    ∧ (generateCandidatePartsV1 topology rng).2.rpos = rng.rpos
    ∧ (generateCandidatePartsV1 topology rng).1.funcA
        = funcGroupsV1.getD
            ((generateCandidatePartsV1 topology rng).2.nats
              ((generateCandidatePartsV1 topology rng).2.npos - 2)
              % funcGroupsV1.length) default := by
  refine ⟨biasThreshold_eq, ?_, ?_, ?_, ?_, ?_⟩
  · intro h
    unfold pick_func_group Rng.random
    simp [h]
  · intro h
    unfold pick_func_group Rng.random
    simp [h, Rng.choice]
  · intro c rng2 h
    unfold generateCandidatePartsV2 at h
    cases hsel : selectTopoV2 topology rng with
    | error e =>
      rw [hsel] at h
      cases h
    | ok sel =>
      rw [hsel] at h
      dsimp only at h
      have hc := congrArg Prod.fst h
      dsimp only at hc
      injection hc with hc
      rw [← hc]
      exact ⟨_, rfl, rfl⟩
  · cases topology with
    | none => rfl
    | some t =>
      unfold generateCandidatePartsV1 selectTopoV1
      dsimp only
      split <;> rfl
  · cases topology with
    | none => rfl
    | some t =>
      unfold generateCandidatePartsV1 selectTopoV1
      dsimp only
      split <;> rfl

/-- C8 counterexample: on a tape whose `random.random()` stream sits below
0.3 — where the claimed bias must return H — the v1 generator still yields
the uniform pick `COOH` for the first substituent and consumes no
`random.random()` draw at all. -/
theorem c8_v1_unbiased_counterexample :
    rng0.reals rng0.rpos < biasThreshold
    ∧ (generateCandidatePartsV1 (some "HCB") rng0).1.funcA = "COOH"
    ∧ ("COOH" : String) ≠ "H"
    ∧ (generateCandidatePartsV1 (some "HCB") rng0).2.rpos = rng0.rpos := by
  refine ⟨by decide, rfl, by decide, rfl⟩

/-- Witness for C8 on the all-zero tape, whose real draws sit below 0.3. -/
theorem c8_substituent_bias_witness :
    (rng0.reals rng0.rpos < biasThreshold ∧ (pick_func_group rng0).1 = "H")
    ∧ (generateCandidatePartsV2 (some "HCB") rng0
        = (.ok ⟨"HCB", "T3", "L2", "BENZ", "BENZ", "NH2", "CHO", "H", "H", "A", "AA"⟩,
           { nats := fun _ => 0, reals := fun _ => 0, npos := 3, rpos := 2 })
      ∧ ∃ r1 : Rng,
          CandParts.funcA ⟨"HCB", "T3", "L2", "BENZ", "BENZ", "NH2", "CHO", "H", "H", "A", "AA"⟩
            = (pick_func_group r1).1
          ∧ CandParts.funcB ⟨"HCB", "T3", "L2", "BENZ", "BENZ", "NH2", "CHO", "H", "H", "A", "AA"⟩
            = (pick_func_group (pick_func_group r1).2).1) := by
  have hr : rng0.reals rng0.rpos < biasThreshold := by decide
  exact ⟨⟨hr, (c8_substituent_bias rng0 none).2.1 hr⟩,
         ⟨rfl, (c8_substituent_bias rng0 (some "HCB")).2.2.2.1 _ _ rfl⟩⟩

/-! ## Concrete stubs for witnesses -/

/-- A builder stub that fails on every call. -/
def stubBuilderFail : Nat → String → BResult :=
  fun n _ => { ok := false, error := some ("boom " ++ toString n) }

/-- A builder stub that fails on call 0 and succeeds from call 1 on. -/
def stubBuilderSecond : Nat → String → BResult :=
  fun n _ => if n = 0 then { ok := false, error := some "boom" } else { ok := true }

/-- A candidate-name stream stub. -/
def stubCands : Nat → String := fun i => "CAND" ++ toString i

/-- A `try_build_and_save` stub that always succeeds. -/
def stubBuildOk : Nat → String → Bool × Option String := fun _ _ => (true, none)

/-- A `random_cof_name` stub that always returns a fixed well-formed name. -/
def stubNameGen : Nat → Except String String := fun _ => .ok "A-B-HCB-AA"

/-- Witness for C1 at a concrete always-failing stub with two attempts. -/
theorem c1_always_failing_builder_exhausts_witness :
    (0 : Nat) < 2
    ∧ (∀ n s, (stubBuilderFail n s).ok = false)
    ∧ ((generate_and_save stubBuilderFail stubCands 2).trace
          = (List.range 2).map stubCands ++ FALLBACK_STRINGS
       ∧ (generate_and_save stubBuilderFail stubCands 2).result.ok = false
       ∧ (generate_and_save stubBuilderFail stubCands 2).result.error
          = (stubBuilderFail (2 + 2)
              "T3_BRZN_CHO_OH-L2_DPDA_NH2_I_H_H_H-HCB_A-AA").error) :=
  ⟨by decide, fun n s => rfl,
   c1_always_failing_builder_exhausts stubBuilderFail stubCands 2 (by decide)
     (fun n s => rfl)⟩

/-- Witness for C2: success on the second of three allowed attempts. -/
theorem c2_success_on_kth_attempt_witness :
    (1 : Nat) ≤ 2 ∧ (2 : Nat) ≤ 3
    ∧ (∀ n, n < 2 - 1 → (stubBuilderSecond n (stubCands n)).ok = false)
    ∧ (stubBuilderSecond (2 - 1) (stubCands (2 - 1))).ok = true
    ∧ ((generate_and_save stubBuilderSecond stubCands 3).trace
          = (List.range 2).map stubCands
       ∧ (generate_and_save stubBuilderSecond stubCands 3).result
          = { stubBuilderSecond (2 - 1) (stubCands (2 - 1)) with
               cofString := stubCands (2 - 1) }
       ∧ (generate_and_save stubBuilderSecond stubCands 3).result.ok = true
       ∧ mainResultV2 stubBuilderSecond stubCands 3
          = ((List.range 2).map stubCands,
             { stubBuilderSecond (2 - 1) (stubCands (2 - 1)) with
                cofString := stubCands (2 - 1) })) :=
  ⟨by decide, by decide,
   fun n hn => by
     have : n = 0 := by omega
     subst this
     rfl,
   rfl,
   c2_success_on_kth_attempt stubBuilderSecond stubCands 2 3 (by decide) (by decide)
     (fun n hn => by
       have : n = 0 := by omega
       subst this
       rfl)
     rfl⟩

/-- Witness for C9: target 2 with budget 5 against always-succeeding stubs. -/
theorem c9_batch_all_success_witness :
    (2 : Nat) ≤ 5
    ∧ (∀ i, ∃ s t, stubNameGen i = .ok s ∧ topoComponent s = .ok t)
    ∧ (∀ i s, stubBuildOk i s = (true, none))
    ∧ (((batch_generate stubNameGen stubBuildOk none 2 (some 5)).records.filter
          (fun r => r.status = "ok")).length = 2
       ∧ (batch_generate stubNameGen stubBuildOk none 2 (some 5)).records.length
          = (batch_generate stubNameGen stubBuildOk none 2 (some 5)).attempts) :=
  ⟨by decide, fun i => ⟨"A-B-HCB-AA", "HCB", rfl, rfl⟩, fun i s => rfl,
   c9_batch_all_success stubNameGen stubBuildOk none 2 5 (by decide)
     (fun i => ⟨"A-B-HCB-AA", "HCB", rfl, rfl⟩) (fun i s => rfl)⟩

end AIchemy
